import Mathlib

/-!
Verification of the therapy-game telemetry API.

A shallow embedding of the backend service in `src/api/` (`main.py`,
`models.py`, `database.py`): player registration with bcrypt-hashed
4-digit passcodes, rate-limited game-session creation with a per-player
hourly quota, and seven exercise-result submission endpoints.

Modelling conventions:
* SQLAlchemy tables become Lean lists of row structures; autoincrement
  primary keys are assigned as `length + 1`.
* Timestamps (`datetime.utcnow()` / `func.now()`) are integer seconds,
  threaded through each request as an explicit `now` parameter.
* Python `float` columns hold measurement values that are stored
  verbatim and never computed with, so they are modelled by `Rat`.
* Randomness (`bcrypt.gensalt()`) is made explicit: the salt is an
  input of the registration operation.
* Python exception control flow becomes `Except`: each endpoint's
  `try` body returns `Except PyError`, and the surrounding
  `except` clauses are the match on that result.  `HTTPException`
  subclasses `Exception` in Python, so a bare `except Exception`
  clause catches it; the embedding reproduces this faithfully.
* Storage faults (network/disk errors during commit) are outside the
  model; the only modelled insert failure is a primary-key violation,
  which SQLAlchemy raises as `IntegrityError` at commit time.
-/

deriving instance DecidableEq for Except

namespace TherapyApi

/-- Result of `bcrypt.hashpw`: a one-way salted hash with the salt
embedded in the output.  `bcrypt.hashpw` is applied to the UTF-8 bytes
of `str(passcode)` (main.py line 137); since both `str` and UTF-8
encoding are injective, the model indexes the digest by the passcode
value itself, and keeps the hash collision-free (bcrypt collisions are
outside the model). -/
structure BcryptHash where
  salt : Nat
  digest : Int
deriving DecidableEq, Repr

/-- Model of `bcrypt.hashpw(str(passcode).encode('utf-8'), salt)`. -/
def bcrypt_hashpw (passcode : Int) (salt : Nat) : BcryptHash :=
  ⟨salt, passcode⟩

/-- Model of `bcrypt.checkpw(str(passcode).encode('utf-8'), stored)`: recompute
the hash with the salt embedded in the stored value and compare. -/
def bcrypt_checkpw (passcode : Int) (stored : BcryptHash) : Bool :=
  stored == bcrypt_hashpw passcode stored.salt

/-- models.py `Player` (table `players`).  The `passcode` column holds
the bcrypt hash produced at registration, never the raw PIN. -/
structure Player where
  player_id : Int
  first_name : String
  last_name : String
  passcode : BcryptHash
deriving DecidableEq, Repr

/-- models.py `GameSession` (table `game_sessions`); `date_time`
defaults to the server clock at insert time. -/
structure GameSession where
  session_id : Int
  player_id : Int
  date_time : Int
deriving DecidableEq, Repr

/-- models.py `BreathingTechnique` (table `breathing_techniques`);
`session_id` is the primary key. -/
structure BreathingTechnique where
  session_id : Int
  play_or_pass : Bool
  breaths : Int
deriving DecidableEq, Repr

/-- models.py `StretchAndReach` (table `stretch_and_reach`). -/
structure StretchAndReach where
  session_id : Int
  play_or_pass : Bool
  total_stars : Int
  highest_level : Int
  missed_stars_location : String
deriving DecidableEq, Repr

/-- models.py `LightHands` (table `light_hands`). -/
structure LightHands where
  session_id : Int
  play_or_pass : Bool
  two_one_left_score : Int
  two_one_right_score : Int
  two_two_left_score : Int
  two_two_right_score : Int
  three_three_left_score : Int
  three_three_right_score : Int
deriving DecidableEq, Repr

/-- models.py `RhythmRecovery` (table `rhythm_recovery`); the per-limb
times are float columns, modelled as rationals. -/
structure RhythmRecovery where
  session_id : Int
  play_or_pass : Bool
  thumb_left_time : Rat
  index_left_time : Rat
  middle_left_time : Rat
  ring_left_time : Rat
  little_left_time : Rat
  thumb_right_time : Rat
  index_right_time : Rat
  middle_right_time : Rat
  ring_right_time : Rat
  little_right_time : Rat
  thumb_left_skipped : Bool
  index_left_skipped : Bool
  middle_left_skipped : Bool
  ring_left_skipped : Bool
  little_left_skipped : Bool
  thumb_right_skipped : Bool
  index_right_skipped : Bool
  middle_right_skipped : Bool
  ring_right_skipped : Bool
  little_right_skipped : Bool
deriving DecidableEq, Repr

/-- models.py `DrawShapes` (table `draw_shapes`). -/
structure DrawShapes where
  session_id : Int
  play_or_pass : Bool
  small_left_time : Int
  small_right_time : Int
  medium_left_time : Int
  medium_right_time : Int
  large_left_time : Int
  large_right_time : Int
deriving DecidableEq, Repr

/-- models.py `LineWalk` (table `line_walk`). -/
structure LineWalk where
  session_id : Int
  play_or_pass : Bool
  forward_time : Rat
  backward_time : Rat
  crab_right_time : Rat
  crab_left_time : Rat
  out_of_line_count : Int
deriving DecidableEq, Repr

/-- models.py `Balloons` (table `balloons`). -/
structure Balloons where
  session_id : Int
  play_or_pass : Bool
  waist_left_score : Int
  waist_right_score : Int
  chest_left_score : Int
  chest_right_score : Int
  head_left_score : Int
  head_right_score : Int
  knees_left_score : Int
  knees_right_score : Int
  feet_left_score : Int
  feet_right_score : Int
deriving DecidableEq, Repr

/-- The relational store: one list per table of models.py. -/
structure Store where
  players : List Player
  game_sessions : List GameSession
  breathing_techniques : List BreathingTechnique
  stretch_and_reach : List StretchAndReach
  light_hands : List LightHands
  rhythm_recovery : List RhythmRecovery
  draw_shapes : List DrawShapes
  line_walk : List LineWalk
  balloons : List Balloons
deriving DecidableEq, Repr

def emptyStore : Store := ⟨[], [], [], [], [], [], [], [], []⟩

/-- Pydantic schema `PlayerCreate` (main.py lines 34-37); the
`passcode` field carries `Field(ge=1000, le=9999)`. -/
structure PlayerCreate where
  first_name : String
  last_name : String
  passcode : Int
deriving DecidableEq, Repr

/-- Pydantic schema `BreathingTechniqueCreate`. -/
structure BreathingTechniqueCreate where
  play_or_pass : Bool
  breaths : Int
deriving DecidableEq, Repr

/-- Pydantic schema `StretchAndReachCreate`. -/
structure StretchAndReachCreate where
  play_or_pass : Bool
  total_stars : Int
  highest_level : Int
  missed_stars_location : String
deriving DecidableEq, Repr

/-- Pydantic schema `LightHandsCreate`. -/
structure LightHandsCreate where
  play_or_pass : Bool
  two_one_left_score : Int
  two_one_right_score : Int
  two_two_left_score : Int
  two_two_right_score : Int
  three_three_left_score : Int
  three_three_right_score : Int
deriving DecidableEq, Repr

/-- Pydantic schema `RhythmRecoveryCreate`. -/
structure RhythmRecoveryCreate where
  play_or_pass : Bool
  thumb_left_time : Rat
  index_left_time : Rat
  middle_left_time : Rat
  ring_left_time : Rat
  little_left_time : Rat
  thumb_right_time : Rat
  index_right_time : Rat
  middle_right_time : Rat
  ring_right_time : Rat
  little_right_time : Rat
  thumb_left_skipped : Bool
  index_left_skipped : Bool
  middle_left_skipped : Bool
  ring_left_skipped : Bool
  little_left_skipped : Bool
  thumb_right_skipped : Bool
  index_right_skipped : Bool
  middle_right_skipped : Bool
  ring_right_skipped : Bool
  little_right_skipped : Bool
deriving DecidableEq, Repr

/-- Pydantic schema `DrawShapesCreate`. -/
structure DrawShapesCreate where
  play_or_pass : Bool
  small_left_time : Int
  small_right_time : Int
  medium_left_time : Int
  medium_right_time : Int
  large_left_time : Int
  large_right_time : Int
deriving DecidableEq, Repr

/-- Pydantic schema `LineWalkCreate`. -/
structure LineWalkCreate where
  play_or_pass : Bool
  forward_time : Rat
  backward_time : Rat
  crab_right_time : Rat
  crab_left_time : Rat
  out_of_line_count : Int
deriving DecidableEq, Repr

/-- Pydantic schema `BalloonsCreate`. -/
structure BalloonsCreate where
  play_or_pass : Bool
  waist_left_score : Int
  waist_right_score : Int
  chest_left_score : Int
  chest_right_score : Int
  head_left_score : Int
  head_right_score : Int
  knees_left_score : Int
  knees_right_score : Int
  feet_left_score : Int
  feet_right_score : Int
deriving DecidableEq, Repr

/-- The `fastapi.HTTPException` error surfaced to the client. -/
structure HTTPException where
  status_code : Nat
  detail : String
deriving DecidableEq, Repr

/-- Exceptions that can escape an endpoint's `try` body:
`HTTPException` raised by the handler itself, or SQLAlchemy's
`IntegrityError` when a commit violates a primary-key constraint. -/
inductive PyError where
  | httpExc (status_code : Nat) (detail : String)
  | integrityError
deriving DecidableEq, Repr

/-- main.py lines 150-157, `verify_player_passcode`: look the player
up by id (404 if absent), check the passcode against the stored bcrypt
hash (401 on mismatch), and return the player id unchanged. -/
def verify_player_passcode (player_id : Int) (passcode : Int) (db : Store) :
    Except HTTPException Int :=
  match db.players.find? (fun p => p.player_id == player_id) with
  | none => .error ⟨404, "Player not found"⟩
  | some player =>
    if !(bcrypt_checkpw passcode player.passcode) then
      .error ⟨401, "Incorrect passcode"⟩
    else
      .ok player.player_id

/-- main.py lines 132-147, `create_player` handler body: hash the
passcode with a fresh salt, insert the Player row, commit, and return
the generated id.  The `except` clause of this handler fires only on a
storage fault during commit, which is outside the model, so the body
always succeeds here. -/
def create_player (player : PlayerCreate) (salt : Nat) (db : Store) :
    Except HTTPException Int × Store :=
  let hashed := bcrypt_hashpw player.passcode salt
  let db_player : Player :=
    ⟨Int.ofNat db.players.length + 1, player.first_name, player.last_name, hashed⟩
  (.ok db_player.player_id, { db with players := db.players ++ [db_player] })

/-- The sliding-window count used by the session quota (main.py lines
166-171): sessions of this player whose `date_time` is within the
trailing hour. -/
def recent_session_count (now : Int) (player_id : Int) (db : Store) : Nat :=
  (db.game_sessions.filter
    (fun s => s.player_id == player_id && decide (now - 3600 ≤ s.date_time))).length

/-- main.py lines 165-182, the `try` body of `create_game_session`:
count the player's sessions in the trailing hour, raise 429 if the
count is at least 20, otherwise insert a new GameSession stamped with
the server clock and return its id. -/
def create_game_session_try (now : Int) (player_id : Int) (verified_player_id : Int)
    (db : Store) : Except PyError (Int × Store) :=
  let session_count := recent_session_count now player_id db
  if session_count ≥ 20 then
    .error (.httpExc 429 "Too many sessions created in the last hour.")
  else
    let new_session : GameSession :=
      ⟨Int.ofNat db.game_sessions.length + 1, verified_player_id, now⟩
    .ok (new_session.session_id,
      { db with game_sessions := db.game_sessions ++ [new_session] })

/-- main.py lines 160-188, `create_game_session` handler: verify the
passcode first (its 404/401 propagate directly, the call sits before
the `try`), then run the quota-and-insert body; `except HTTPException`
re-raises the quota 429 unchanged, any other exception rolls back and
becomes 500 "Database error". -/
def create_game_session (now : Int) (player_id : Int) (passcode : Int) (db : Store) :
    Except HTTPException Int × Store :=
  match verify_player_passcode player_id passcode db with
  | .error e => (.error e, db)
  | .ok verified_player_id =>
    match create_game_session_try now player_id verified_player_id db with
    | .ok (sid, db') => (.ok sid, db')
    | .error (.httpExc s d) => (.error ⟨s, d⟩, db)
    | .error .integrityError => (.error ⟨500, "Database error"⟩, db)

/-- main.py lines 197-205, the `try` body of
`create_breathing_technique`: raise 404 if the session does not exist,
otherwise insert the record; a duplicate `session_id` violates the
primary key of `breathing_techniques` (models.py line 20) and the
commit raises `IntegrityError`. -/
def create_breathing_technique_try (session_id : Int)
    (data : BreathingTechniqueCreate) (db : Store) :
    Except PyError (String × Store) :=
  if (db.game_sessions.find? (fun s => s.session_id == session_id)).isNone then
    .error (.httpExc 404 "Game session not found")
  else if db.breathing_techniques.any (fun r => r.session_id == session_id) then
    .error .integrityError
  else
    let bt : BreathingTechnique := ⟨session_id, data.play_or_pass, data.breaths⟩
    .ok ("Breathing technique record created",
      { db with breathing_techniques := db.breathing_techniques ++ [bt] })

/-- main.py lines 195-208, `create_breathing_technique`: the handler
wraps its whole body in `try ... except Exception`, and Python's
`HTTPException` subclasses `Exception`, so the 404 raised inside the
`try` is caught by the same handler and re-raised as
500 "Database error" after rollback.  (Unlike `create_game_session`,
these handlers have no `except HTTPException: raise` clause.) -/
def create_breathing_technique (session_id : Int) (data : BreathingTechniqueCreate)
    (db : Store) : Except HTTPException String × Store :=
  match create_breathing_technique_try session_id data db with
  | .ok (msg, db') => (.ok msg, db')
  | .error _ => (.error ⟨500, "Database error"⟩, db)

/-- main.py lines 213-224, the `try` body of `create_stretch_and_reach`. -/
def create_stretch_and_reach_try (session_id : Int) (data : StretchAndReachCreate)
    (db : Store) : Except PyError (String × Store) :=
  if (db.game_sessions.find? (fun s => s.session_id == session_id)).isNone then
    .error (.httpExc 404 "Game session not found")
  else if db.stretch_and_reach.any (fun r => r.session_id == session_id) then
    .error .integrityError
  else
    let sar : StretchAndReach := ⟨session_id, data.play_or_pass, data.total_stars,
      data.highest_level, data.missed_stars_location⟩
    .ok ("Stretch and reach record created",
      { db with stretch_and_reach := db.stretch_and_reach ++ [sar] })

/-- main.py lines 213-224, `create_stretch_and_reach` (same catch-all
`except Exception` as `create_breathing_technique`). -/
def create_stretch_and_reach (session_id : Int) (data : StretchAndReachCreate)
    (db : Store) : Except HTTPException String × Store :=
  match create_stretch_and_reach_try session_id data db with
  | .ok (msg, db') => (.ok msg, db')
  | .error _ => (.error ⟨500, "Database error"⟩, db)

/-- main.py lines 226-237, the `try` body of `create_light_hands`. -/
def create_light_hands_try (session_id : Int) (data : LightHandsCreate)
    (db : Store) : Except PyError (String × Store) :=
  if (db.game_sessions.find? (fun s => s.session_id == session_id)).isNone then
    .error (.httpExc 404 "Game session not found")
  else if db.light_hands.any (fun r => r.session_id == session_id) then
    .error .integrityError
  else
    let lh : LightHands := ⟨session_id, data.play_or_pass,
      data.two_one_left_score, data.two_one_right_score,
      data.two_two_left_score, data.two_two_right_score,
      data.three_three_left_score, data.three_three_right_score⟩
    .ok ("Light hands record created",
      { db with light_hands := db.light_hands ++ [lh] })

/-- main.py lines 226-237, `create_light_hands` (same catch-all). -/
def create_light_hands (session_id : Int) (data : LightHandsCreate)
    (db : Store) : Except HTTPException String × Store :=
  match create_light_hands_try session_id data db with
  | .ok (msg, db') => (.ok msg, db')
  | .error _ => (.error ⟨500, "Database error"⟩, db)

/-- main.py lines 240-251, the `try` body of `create_rhythm_recovery`. -/
def create_rhythm_recovery_try (session_id : Int) (data : RhythmRecoveryCreate)
    (db : Store) : Except PyError (String × Store) :=
  if (db.game_sessions.find? (fun s => s.session_id == session_id)).isNone then
    .error (.httpExc 404 "Game session not found")
  else if db.rhythm_recovery.any (fun r => r.session_id == session_id) then
    .error .integrityError
  else
    let rr : RhythmRecovery := ⟨session_id, data.play_or_pass,
      data.thumb_left_time, data.index_left_time, data.middle_left_time,
      data.ring_left_time, data.little_left_time,
      data.thumb_right_time, data.index_right_time, data.middle_right_time,
      data.ring_right_time, data.little_right_time,
      data.thumb_left_skipped, data.index_left_skipped, data.middle_left_skipped,
      data.ring_left_skipped, data.little_left_skipped,
      data.thumb_right_skipped, data.index_right_skipped, data.middle_right_skipped,
      data.ring_right_skipped, data.little_right_skipped⟩
    .ok ("Rhythm recovery record created",
      { db with rhythm_recovery := db.rhythm_recovery ++ [rr] })

/-- main.py lines 240-251, `create_rhythm_recovery` (same catch-all). -/
def create_rhythm_recovery (session_id : Int) (data : RhythmRecoveryCreate)
    (db : Store) : Except HTTPException String × Store :=
  match create_rhythm_recovery_try session_id data db with
  | .ok (msg, db') => (.ok msg, db')
  | .error _ => (.error ⟨500, "Database error"⟩, db)

/-- main.py lines 254-265, the `try` body of `create_draw_shapes`. -/
def create_draw_shapes_try (session_id : Int) (data : DrawShapesCreate)
    (db : Store) : Except PyError (String × Store) :=
  if (db.game_sessions.find? (fun s => s.session_id == session_id)).isNone then
    .error (.httpExc 404 "Game session not found")
  else if db.draw_shapes.any (fun r => r.session_id == session_id) then
    .error .integrityError
  else
    let ds : DrawShapes := ⟨session_id, data.play_or_pass,
      data.small_left_time, data.small_right_time,
      data.medium_left_time, data.medium_right_time,
      data.large_left_time, data.large_right_time⟩
    .ok ("Draw shapes record created",
      { db with draw_shapes := db.draw_shapes ++ [ds] })

/-- main.py lines 254-265, `create_draw_shapes` (same catch-all). -/
def create_draw_shapes (session_id : Int) (data : DrawShapesCreate)
    (db : Store) : Except HTTPException String × Store :=
  match create_draw_shapes_try session_id data db with
  | .ok (msg, db') => (.ok msg, db')
  | .error _ => (.error ⟨500, "Database error"⟩, db)

/-- main.py lines 267-278, the `try` body of `create_line_walk`. -/
def create_line_walk_try (session_id : Int) (data : LineWalkCreate)
    (db : Store) : Except PyError (String × Store) :=
  if (db.game_sessions.find? (fun s => s.session_id == session_id)).isNone then
    .error (.httpExc 404 "Game session not found")
  else if db.line_walk.any (fun r => r.session_id == session_id) then
    .error .integrityError
  else
    let lw : LineWalk := ⟨session_id, data.play_or_pass,
      data.forward_time, data.backward_time,
      data.crab_right_time, data.crab_left_time, data.out_of_line_count⟩
    .ok ("Line walk record created",
      { db with line_walk := db.line_walk ++ [lw] })

/-- main.py lines 267-278, `create_line_walk` (same catch-all). -/
def create_line_walk (session_id : Int) (data : LineWalkCreate)
    (db : Store) : Except HTTPException String × Store :=
  match create_line_walk_try session_id data db with
  | .ok (msg, db') => (.ok msg, db')
  | .error _ => (.error ⟨500, "Database error"⟩, db)

/-- main.py lines 280-291, the `try` body of `create_balloons`. -/
def create_balloons_try (session_id : Int) (data : BalloonsCreate)
    (db : Store) : Except PyError (String × Store) :=
  if (db.game_sessions.find? (fun s => s.session_id == session_id)).isNone then
    .error (.httpExc 404 "Game session not found")
  else if db.balloons.any (fun r => r.session_id == session_id) then
    .error .integrityError
  else
    let bl : Balloons := ⟨session_id, data.play_or_pass,
      data.waist_left_score, data.waist_right_score,
      data.chest_left_score, data.chest_right_score,
      data.head_left_score, data.head_right_score,
      data.knees_left_score, data.knees_right_score,
      data.feet_left_score, data.feet_right_score⟩
    .ok ("Balloons record created",
      { db with balloons := db.balloons ++ [bl] })

/-- main.py lines 280-291, `create_balloons` (same catch-all). -/
def create_balloons (session_id : Int) (data : BalloonsCreate)
    (db : Store) : Except HTTPException String × Store :=
  match create_balloons_try session_id data db with
  | .ok (msg, db') => (.ok msg, db')
  | .error _ => (.error ⟨500, "Database error"⟩, db)

/-- A request to one of the seven exercise-result endpoints, tagged by
exercise kind with that kind's pydantic body. -/
inductive ExerciseRequest where
  | breathingTechniques (d : BreathingTechniqueCreate)
  | stretchAndReach (d : StretchAndReachCreate)
  | lightHands (d : LightHandsCreate)
  | rhythmRecovery (d : RhythmRecoveryCreate)
  | drawShapes (d : DrawShapesCreate)
  | lineWalk (d : LineWalkCreate)
  | balloons (d : BalloonsCreate)
deriving DecidableEq, Repr

/-- Dispatch of `POST /game_sessions/<session_id>/create_*` to the
seven handlers. -/
def create_exercise_result (session_id : Int) (req : ExerciseRequest) (db : Store) :
    Except HTTPException String × Store :=
  match req with
  | .breathingTechniques d => create_breathing_technique session_id d db
  | .stretchAndReach d => create_stretch_and_reach session_id d db
  | .lightHands d => create_light_hands session_id d db
  | .rhythmRecovery d => create_rhythm_recovery session_id d db
  | .drawShapes d => create_draw_shapes session_id d db
  | .lineWalk d => create_line_walk session_id d db
  | .balloons d => create_balloons session_id d db

/-- One recorded request of the slowapi limiter (main.py line 26),
keyed by decorated route and client address. -/
structure RateEntry where
  route : String
  addr : String
  time : Int
deriving DecidableEq, Repr

/-- The shared slowapi `Limiter` state. -/
structure RateLimiter where
  log : List RateEntry
deriving DecidableEq, Repr

/-- Modelled from the spec: the window bookkeeping of the slowapi
`Limiter` (main.py line 26, `@limiter.limit` decorators at lines 133
and 161) lives in the slowapi/limits libraries, not under `src/`.
Per spec section 4.2 it is an address-keyed sliding one-minute window:
a request is admitted when fewer than `limit` requests from the same
address hit the same route in the trailing 60 seconds, and every
request (admitted or refused) is recorded.  This predicate selects the
log entries of the same route and address inside the trailing 60
seconds. -/
def rate_window_pred (route : String) (addr : String) (now : Int)
    (e : RateEntry) : Bool :=
  e.route == route && e.addr == addr &&
    decide (now - 60 < e.time) && decide (e.time ≤ now)

/-- Modelled from the spec (see `rate_window_pred`): one limiter
check-and-record step. -/
def limiter_hit (route : String) (limit : Nat) (addr : String) (now : Int)
    (rl : RateLimiter) : Bool × RateLimiter :=
  let recent := rl.log.countP (rate_window_pred route addr now)
  (recent < limit, ⟨rl.log ++ [⟨route, addr, now⟩]⟩)

/-- The whole service state: the relational store plus the in-process
rate-limiter counters. -/
structure AppState where
  store : Store
  limiter : RateLimiter
deriving DecidableEq, Repr

def initialState : AppState := ⟨emptyStore, ⟨[]⟩⟩

/-- Endpoint `POST /create_player` as seen from the wire: FastAPI validates the
pydantic body first (passcode outside `Field(ge=1000, le=9999)` is a
422 validation error and the endpoint never runs), then the
`@limiter.limit("5/minute")` decorator checks the address window, then
the handler body runs. -/
def post_create_player (now : Int) (addr : String)
    (player_first_name player_last_name : String) (passcode : Int) (salt : Nat)
    (st : AppState) : Except HTTPException Int × AppState :=
  if passcode < 1000 ∨ 9999 < passcode then
    (.error ⟨422, "validation error"⟩, st)
  else
    match limiter_hit "create_player" 5 addr now st.limiter with
    | (ok, rl') =>
      if ok then
        match create_player ⟨player_first_name, player_last_name, passcode⟩ salt st.store with
        | (r, db') => (r, ⟨db', rl'⟩)
      else
        (.error ⟨429, "Too many requests"⟩, ⟨st.store, rl'⟩)

/-- Endpoint `POST /create_game_session?player_id&passcode` as seen from the
wire: the query parameters are plain `int`s with no range constraint
(main.py line 162), so the only pre-handler step is the
`@limiter.limit("10/minute")` address check. -/
def post_create_game_session (now : Int) (addr : String) (player_id : Int)
    (passcode : Int) (st : AppState) : Except HTTPException Int × AppState :=
  match limiter_hit "create_game_session" 10 addr now st.limiter with
  | (ok, rl') =>
    if ok then
      match create_game_session now player_id passcode st.store with
      | (r, db') => (r, ⟨db', rl'⟩)
    else
      (.error ⟨429, "Too many requests"⟩, ⟨st.store, rl'⟩)

/-- Endpoint `POST /game_sessions/<session_id>/create_*` as seen from the wire:
none of the seven exercise endpoints carries a `@limiter.limit`
decorator, so the handler runs directly and the limiter state is
untouched. -/
def post_create_exercise_result (session_id : Int) (req : ExerciseRequest)
    (st : AppState) : Except HTTPException String × AppState :=
  match create_exercise_result session_id req st.store with
  | (r, db') => (r, ⟨db', st.limiter⟩)

/-- Modelled from the spec, section 4.2: the session-creation
admission pipeline stated in the spec's own stage order —
address-rate-limit check, then passcode verification, then per-player
quota check, then insert — where a failure at any stage short-circuits
the later stages and leaves the store unwritten. -/
def session_admission_spec (now : Int) (addr : String) (player_id : Int)
    (passcode : Int) (st : AppState) : Except HTTPException Int × AppState :=
  match limiter_hit "create_game_session" 10 addr now st.limiter with
  | (ok, rl') =>
    if !ok then
      (.error ⟨429, "Too many requests"⟩, ⟨st.store, rl'⟩)
    else
      match verify_player_passcode player_id passcode st.store with
      | .error e => (.error e, ⟨st.store, rl'⟩)
      | .ok verified_player_id =>
        if 20 ≤ recent_session_count now player_id st.store then
          (.error ⟨429, "Too many sessions created in the last hour."⟩,
            ⟨st.store, rl'⟩)
        else
          let ns : GameSession :=
            ⟨Int.ofNat st.store.game_sessions.length + 1, verified_player_id, now⟩
          (.ok ns.session_id,
            ⟨{ st.store with game_sessions := st.store.game_sessions ++ [ns] }, rl'⟩)

/-- The states reachable from a fresh service through the public
write operations. -/
inductive Reachable : AppState → Prop where
  | init : Reachable initialState
  | step_create_player (now : Int) (addr fn ln : String) (passcode : Int)
      (salt : Nat) (st : AppState) : Reachable st →
      Reachable (post_create_player now addr fn ln passcode salt st).2
  | step_create_game_session (now : Int) (addr : String) (player_id passcode : Int)
      (st : AppState) : Reachable st →
      Reachable (post_create_game_session now addr player_id passcode st).2
  | step_exercise (session_id : Int) (req : ExerciseRequest) (st : AppState) :
      Reachable st → Reachable (post_create_exercise_result session_id req st).2

/-- Each exercise table holds at most one row per session: the
`session_id` column, its primary key, never repeats. -/
def table_keys_unique (db : Store) : Prop :=
  (db.breathing_techniques.map BreathingTechnique.session_id).Nodup ∧
  (db.stretch_and_reach.map StretchAndReach.session_id).Nodup ∧
  (db.light_hands.map LightHands.session_id).Nodup ∧
  (db.rhythm_recovery.map RhythmRecovery.session_id).Nodup ∧
  (db.draw_shapes.map DrawShapes.session_id).Nodup ∧
  (db.line_walk.map LineWalk.session_id).Nodup ∧
  (db.balloons.map Balloons.session_id).Nodup

instance (db : Store) : Decidable (table_keys_unique db) := by
  unfold table_keys_unique; infer_instance

/-- Whether the table of the request's exercise kind already holds a
row keyed by this session. -/
def has_result (db : Store) (req : ExerciseRequest) (session_id : Int) : Bool :=
  match req with
  | .breathingTechniques _ => db.breathing_techniques.any (fun r => r.session_id == session_id)
  | .stretchAndReach _ => db.stretch_and_reach.any (fun r => r.session_id == session_id)
  | .lightHands _ => db.light_hands.any (fun r => r.session_id == session_id)
  | .rhythmRecovery _ => db.rhythm_recovery.any (fun r => r.session_id == session_id)
  | .drawShapes _ => db.draw_shapes.any (fun r => r.session_id == session_id)
  | .lineWalk _ => db.line_walk.any (fun r => r.session_id == session_id)
  | .balloons _ => db.balloons.any (fun r => r.session_id == session_id)

/-- A store holding one registered player (id 1, passcode 4321 hashed
with salt 7) and twenty sessions of that player, all stamped inside the
trailing hour of clock time 4000. -/
def quotaStore : Store :=
  ⟨[⟨1, "Ann", "Lee", ⟨7, 4321⟩⟩],
   (List.range 20).map (fun i => ⟨Int.ofNat i + 1, 1, 3900⟩),
   [], [], [], [], [], [], []⟩

/-- The service state after one registration from a fresh service. -/
def demo_state1 : AppState :=
  (post_create_player 0 "client" "Ann" "Lee" 4321 7 initialState).2

/-- The service state after that player opens a session. -/
def demo_state2 : AppState :=
  (post_create_game_session 1 "client" 1 4321 demo_state1).2

/-- The service state after one breathing-technique result lands in
that session. -/
def demo_state3 : AppState :=
  (post_create_exercise_result 1 (.breathingTechniques ⟨true, 12⟩) demo_state2).2

end TherapyApi

namespace TherapyApi

/-- Every failure of `verify_player_passcode` carries status 404 or 401. -/
lemma verify_player_passcode_status (player_id passcode : Int) (db : Store)
    (e : HTTPException)
    (h : verify_player_passcode player_id passcode db = .error e) :
    e.status_code = 404 ∨ e.status_code = 401 := by
  unfold verify_player_passcode at h
  split at h
  · simp only [Except.error.injEq] at h
    subst h
    exact Or.inl rfl
  · split at h
    · simp only [Except.error.injEq] at h
      subst h
      exact Or.inr rfl
    · simp at h

/-- Every failure of the `create_game_session` handler carries status
404, 401, 429 or 500. -/
lemma create_game_session_status (now player_id passcode : Int) (db : Store)
    (e : HTTPException)
    (h : (create_game_session now player_id passcode db).1 = .error e) :
    e.status_code = 404 ∨ e.status_code = 401 ∨ e.status_code = 429 ∨
      e.status_code = 500 := by
  unfold create_game_session at h
  split at h
  case h_1 e' heq =>
    simp only [Except.error.injEq] at h
    subst h
    rcases verify_player_passcode_status _ _ _ _ heq with h4 | h4
    · exact Or.inl h4
    · exact Or.inr (Or.inl h4)
  case h_2 vid heq =>
    cases htry : create_game_session_try now player_id vid db with
    | error pe =>
      cases pe with
      | httpExc s d =>
        rw [htry] at h
        simp only [Except.error.injEq] at h
        subst h
        simp only [create_game_session_try] at htry
        split at htry
        · simp only [Except.error.injEq, PyError.httpExc.injEq] at htry
          exact Or.inr (Or.inr (Or.inl htry.1.symm))
        · simp at htry
      | integrityError =>
        rw [htry] at h
        simp only [Except.error.injEq] at h
        subst h
        exact Or.inr (Or.inr (Or.inr rfl))
    | ok pr =>
      obtain ⟨sid, db'⟩ := pr
      rw [htry] at h
      simp at h

/-- Every failure of the full session-creation request carries status
404, 401, 429 or 500 — in particular never a 422 validation error. -/
lemma post_create_game_session_status (now : Int) (addr : String)
    (player_id passcode : Int) (st : AppState) (e : HTTPException)
    (h : (post_create_game_session now addr player_id passcode st).1 = .error e) :
    e.status_code = 404 ∨ e.status_code = 401 ∨ e.status_code = 429 ∨
      e.status_code = 500 := by
  unfold post_create_game_session at h
  split at h
  next ok rl' heq =>
    split at h
    · rcases hC : create_game_session now player_id passcode st.store with ⟨r, db'⟩
      rw [hC] at h
      exact create_game_session_status now player_id passcode st.store e
        (by rw [hC]; exact h)
    · simp only [Except.error.injEq] at h
      subst h
      exact Or.inr (Or.inr (Or.inl rfl))

/-- Appending a row whose key is absent from a table preserves key
uniqueness. -/
lemma nodup_key_append {α : Type} (l : List α) (f : α → Int) (x : α) (sid : Int)
    (hfx : f x = sid) (h : (l.map f).Nodup)
    (hx : (l.any fun r => f r == sid) = false) :
    ((l ++ [x]).map f).Nodup := by
  rw [List.map_append, List.nodup_append]
  refine ⟨h, List.nodup_singleton _, ?_⟩
  intro b hb hb2
  simp only [List.map_cons, List.map_nil, List.mem_singleton] at hb2
  subst hb2
  rcases List.mem_map.mp hb with ⟨a, ha, hfa⟩
  rw [List.any_eq_false] at hx
  exact hx a ha (by simp [hfa, hfx])

/-- A submission for a session that already holds a result row of the
same exercise kind fails with 500 and leaves the state unchanged
(either the session lookup fails, or the primary-key violation rolls
the transaction back). -/
lemma duplicate_submission_fails (st : AppState) (session_id : Int)
    (req : ExerciseRequest) (h : has_result st.store req session_id = true) :
    post_create_exercise_result session_id req st
      = (.error ⟨500, "Database error"⟩, st) := by
  cases req <;>
    (simp only [has_result] at h
     simp only [post_create_exercise_result, create_exercise_result,
       create_breathing_technique, create_breathing_technique_try,
       create_stretch_and_reach, create_stretch_and_reach_try,
       create_light_hands, create_light_hands_try,
       create_rhythm_recovery, create_rhythm_recovery_try,
       create_draw_shapes, create_draw_shapes_try,
       create_line_walk, create_line_walk_try,
       create_balloons, create_balloons_try, h, eq_self_iff_true, if_true]
     cases hc : (List.find? (fun s => s.session_id == session_id)
         st.store.game_sessions).isNone <;>
       rfl)

/-- Player registration touches no exercise table. -/
lemma table_keys_unique_create_player (now : Int) (addr fn ln : String)
    (pc : Int) (salt : Nat) (st : AppState) (h : table_keys_unique st.store) :
    table_keys_unique (post_create_player now addr fn ln pc salt st).2.store := by
  unfold post_create_player
  split
  · exact h
  · rcases hL : limiter_hit "create_player" 5 addr now st.limiter with ⟨ok, rl'⟩
    cases ok
    · exact h
    · exact h

/-- When the quota body succeeds, the new store is the old one with
exactly one appended session. -/
lemma create_game_session_try_ok (now player_id vid : Int) (db : Store)
    (sid : Int) (db' : Store)
    (h2 : create_game_session_try now player_id vid db = .ok (sid, db')) :
    db' = { db with game_sessions := db.game_sessions ++
      [⟨Int.ofNat db.game_sessions.length + 1, vid, now⟩] } := by
  simp only [create_game_session_try] at h2
  split at h2
  · simp at h2
  · simp only [Except.ok.injEq, Prod.mk.injEq] at h2
    exact h2.2.symm

/-- Session creation either leaves the store unchanged or appends
exactly one session row. -/
lemma create_game_session_store (now player_id passcode : Int) (db : Store) :
    (create_game_session now player_id passcode db).2 = db ∨
    ∃ vid, (create_game_session now player_id passcode db).2
      = { db with game_sessions := db.game_sessions ++
          [⟨Int.ofNat db.game_sessions.length + 1, vid, now⟩] } := by
  unfold create_game_session
  split
  · exact Or.inl rfl
  · rename_i vid hv
    split
    · rename_i sid db2 htry
      exact Or.inr ⟨vid, create_game_session_try_ok now player_id vid db sid db2 htry⟩
    · exact Or.inl rfl
    · exact Or.inl rfl

/-- Session creation touches no exercise table. -/
lemma table_keys_unique_create_session (now : Int) (addr : String)
    (player_id passcode : Int) (st : AppState) (h : table_keys_unique st.store) :
    table_keys_unique
      (post_create_game_session now addr player_id passcode st).2.store := by
  unfold post_create_game_session
  rcases hL : limiter_hit "create_game_session" 10 addr now st.limiter with ⟨ok, rl'⟩
  cases ok
  · exact h
  · rcases hC : create_game_session now player_id passcode st.store with ⟨r, db'⟩
    have hdb : (create_game_session now player_id passcode st.store).2 = db' := by
      rw [hC]
    rcases create_game_session_store now player_id passcode st.store with hst | ⟨vid, hst⟩
    · have hy : db' = st.store := by rw [← hdb, hst]
      subst hy
      exact h
    · have hy : db' = { st.store with game_sessions := st.store.game_sessions ++
        [⟨Int.ofNat st.store.game_sessions.length + 1, vid, now⟩] } := by
        rw [← hdb, hst]
      subst hy
      exact h

/-- An exercise-result submission preserves key uniqueness of all
seven exercise tables: it inserts only after checking that no row of
that table already carries the session id. -/
lemma table_keys_unique_exercise (session_id : Int) (req : ExerciseRequest)
    (st : AppState) (h : table_keys_unique st.store) :
    table_keys_unique (post_create_exercise_result session_id req st).2.store := by
  unfold table_keys_unique at h ⊢
  obtain ⟨h1, h2, h3, h4, h5, h6, h7⟩ := h
  cases req <;>
    (simp only [post_create_exercise_result, create_exercise_result,
       create_breathing_technique, create_breathing_technique_try,
       create_stretch_and_reach, create_stretch_and_reach_try,
       create_light_hands, create_light_hands_try,
       create_rhythm_recovery, create_rhythm_recovery_try,
       create_draw_shapes, create_draw_shapes_try,
       create_line_walk, create_line_walk_try,
       create_balloons, create_balloons_try]
     split
     · rename_i msg db' heq
       split at heq
       · simp at heq
       · split at heq
         · simp at heq
         · rename_i hsess hdup
           simp only [Except.ok.injEq, Prod.mk.injEq] at heq
           obtain ⟨hmsg, hdb⟩ := heq
           subst hdb
           refine ⟨?_, ?_, ?_, ?_, ?_, ?_, ?_⟩ <;>
             first
               | assumption
               | exact nodup_key_append _ _ _ session_id rfl (by assumption)
                   (by simpa using hdup)
     · exact ⟨h1, h2, h3, h4, h5, h6, h7⟩)

/-- A registration request with a valid passcode whose address shows
fewer than five recorded hits in the trailing minute is admitted: it
returns a player id and records the hit. -/
lemma post_create_player_admitted (now : Int) (addr fn ln : String) (salt : Nat)
    (st : AppState) (L : List RateEntry) (hlog : st.limiter.log = L)
    (hcount : L.countP (rate_window_pred "create_player" addr now) < 5) :
    ∃ i st', post_create_player now addr fn ln 4321 salt st = (.ok i, st') ∧
      st'.limiter.log = L ++ [⟨"create_player", addr, now⟩] := by
  subst hlog
  have hval : ¬((4321 : Int) < 1000 ∨ (9999 : Int) < 4321) := by decide
  have h1 : (post_create_player now addr fn ln 4321 salt st).1
      = .ok (Int.ofNat st.store.players.length + 1) := by
    simp only [post_create_player, limiter_hit, if_neg hval, create_player,
      decide_eq_true hcount, if_true]
  have h2 : (post_create_player now addr fn ln 4321 salt st).2.limiter.log
      = st.limiter.log ++ [⟨"create_player", addr, now⟩] := by
    simp only [post_create_player, limiter_hit, if_neg hval, create_player,
      decide_eq_true hcount, if_true]
  exact ⟨Int.ofNat st.store.players.length + 1,
    (post_create_player now addr fn ln 4321 salt st).2, Prod.ext h1 rfl, h2⟩

/-- A registration request whose address already shows five or more
recorded hits in the trailing minute is refused with 429, and the hit
is still recorded. -/
lemma post_create_player_refused (now : Int) (addr fn ln : String) (salt : Nat)
    (st : AppState) (L : List RateEntry) (hlog : st.limiter.log = L)
    (hcount : ¬ (L.countP (rate_window_pred "create_player" addr now) < 5)) :
    ∃ st', post_create_player now addr fn ln 4321 salt st
        = (.error ⟨429, "Too many requests"⟩, st') ∧
      st'.limiter.log = L ++ [⟨"create_player", addr, now⟩] := by
  subst hlog
  have hval : ¬((4321 : Int) < 1000 ∨ (9999 : Int) < 4321) := by decide
  have h1 : (post_create_player now addr fn ln 4321 salt st).1
      = .error ⟨429, "Too many requests"⟩ := by
    simp only [post_create_player, limiter_hit, if_neg hval,
      decide_eq_false hcount]
    rfl
  have h2 : (post_create_player now addr fn ln 4321 salt st).2.limiter.log
      = st.limiter.log ++ [⟨"create_player", addr, now⟩] := by
    simp only [post_create_player, limiter_hit, if_neg hval,
      decide_eq_false hcount]
    rfl
  exact ⟨(post_create_player now addr fn ln 4321 salt st).2, Prod.ext h1 rfl, h2⟩

/-- C1: the spec claims that submitting an exercise result for a
nonexistent session fails with NotFound (404 "session not found") for
all seven exercise kinds.  The code does raise that 404 inside the
handler's `try` block, but the catch-all `except Exception` of the
same handler catches it (`HTTPException` subclasses `Exception`) and
re-raises 500 "Database error" instead — unlike `create_game_session`,
which has an explicit `except HTTPException: raise`.  Evaluated at the
failing input (a fresh service with no sessions, any of the seven
exercise kinds, session id 1): the observable result is the 500 error,
not 404, and no row is inserted (the state is unchanged). -/
theorem C1_thm (req : ExerciseRequest) :
    post_create_exercise_result 1 req initialState
      = (Except.error ⟨500, "Database error"⟩, initialState) := by
  cases req <;> rfl

/-- C2: for every registration with first name, last name and a
passcode p in [1000, 9999], verifying the returned player id with the
same p succeeds and returns that id unchanged, and verifying it with
any other passcode fails with Unauthorized (401).  The freshness
hypothesis states that the autoincrement id about to be assigned is
not already taken, which holds in every state the store reaches. -/
theorem C2_thm (fn ln : String) (p : Int) (salt : Nat) (db : Store)
    (hrange : 1000 ≤ p ∧ p ≤ 9999)
    (hfresh : ∀ pl ∈ db.players, pl.player_id ≠ Int.ofNat db.players.length + 1)
    (pid : Int) (hpid : (create_player ⟨fn, ln, p⟩ salt db).1 = .ok pid)
    (p' : Int) (hne : p' ≠ p) :
    verify_player_passcode pid p (create_player ⟨fn, ln, p⟩ salt db).2 = .ok pid ∧
    verify_player_passcode pid p' (create_player ⟨fn, ln, p⟩ salt db).2
      = .error ⟨401, "Incorrect passcode"⟩ := by
  simp only [create_player] at hpid
  rw [Except.ok.injEq] at hpid
  subst hpid
  have hnone : db.players.find?
      (fun q => q.player_id == (db.players.length : Int) + 1) = none := by
    rw [List.find?_eq_none]
    intro x hx
    simpa using hfresh x hx
  constructor
  · simp [verify_player_passcode, create_player, hnone, bcrypt_checkpw, bcrypt_hashpw]
  · simp [verify_player_passcode, create_player, hnone, bcrypt_checkpw, bcrypt_hashpw,
      Ne.symm hne]

/-- C2 witness: concrete roundtrip at passcode 4321 against the empty
store, with wrong passcode 9999. -/
theorem C2_witness :
    verify_player_passcode 1 4321 (create_player ⟨"Ann", "Lee", 4321⟩ 7 emptyStore).2
      = .ok 1 ∧
    verify_player_passcode 1 9999 (create_player ⟨"Ann", "Lee", 4321⟩ 7 emptyStore).2
      = .error ⟨401, "Incorrect passcode"⟩ :=
  C2_thm "Ann" "Lee" 4321 7 emptyStore (by decide) (by simp [emptyStore]) 1 (by decide)
    9999 (by decide)

/-- C3: for every player id with no Player row and every passcode
value, session creation fails with NotFound (404) and the store is
unchanged — no session row is created, and neither the quota check nor
the insert is reached (verification short-circuits the handler before
its `try` body). -/
theorem C3_thm (now player_id passcode : Int) (db : Store)
    (habs : ∀ pl ∈ db.players, pl.player_id ≠ player_id) :
    create_game_session now player_id passcode db
      = (.error ⟨404, "Player not found"⟩, db) := by
  have hfind : db.players.find? (fun p => p.player_id == player_id) = none := by
    rw [List.find?_eq_none]
    intro x hx
    simpa using habs x hx
  simp [create_game_session, verify_player_passcode, hfind]

/-- C3 witness: nonexistent player 1 with out-of-range passcode 5
against the empty store. -/
theorem C3_witness :
    create_game_session 0 1 5 emptyStore
      = (.error ⟨404, "Player not found"⟩, emptyStore) :=
  C3_thm 0 1 5 emptyStore (by simp [emptyStore])

/-- C4: for a player that passes passcode verification, if the count
of that player's sessions with timestamp in the trailing 60 minutes is
at least 20, session creation fails with 429 and no row is created; if
the count is below 20, a new session stamped with the current clock is
appended and its id returned. -/
theorem C4_thm (now player_id passcode : Int) (db : Store) (pid : Int)
    (hauth : verify_player_passcode player_id passcode db = .ok pid) :
    (20 ≤ recent_session_count now player_id db →
      create_game_session now player_id passcode db
        = (.error ⟨429, "Too many sessions created in the last hour."⟩, db)) ∧
    (recent_session_count now player_id db < 20 →
      create_game_session now player_id passcode db
        = (.ok (Int.ofNat db.game_sessions.length + 1),
            { db with game_sessions := db.game_sessions ++
              [⟨Int.ofNat db.game_sessions.length + 1, pid, now⟩] })) := by
  constructor
  · intro h
    simp [create_game_session, hauth, create_game_session_try, h]
  · intro h
    simp [create_game_session, hauth, create_game_session_try, Nat.not_le.mpr h]

/-- C4 witness: a player with exactly 20 sessions inside the trailing
hour is refused with 429. -/
theorem C4_witness :
    create_game_session 4000 1 4321 quotaStore
      = (.error ⟨429, "Too many sessions created in the last hour."⟩, quotaStore) :=
  (C4_thm 4000 1 4321 quotaStore 1 (by decide)).1 (by decide)

/-- C5: the session-creation request equals, for every input and
state, the staged pipeline written in the spec's order — address rate
limit, then passcode verification, then per-player quota, then insert
— where a failure at any stage short-circuits the later stages and
performs no store writes.  In particular the quota is consulted only
after verification succeeds. -/
theorem C5_thm (now : Int) (addr : String) (player_id passcode : Int)
    (st : AppState) :
    post_create_game_session now addr player_id passcode st
      = session_admission_spec now addr player_id passcode st := by
  unfold post_create_game_session session_admission_spec
  rcases hL : limiter_hit "create_game_session" 10 addr now st.limiter with ⟨ok, rl'⟩
  cases ok
  · rfl
  · unfold create_game_session
    cases hv : verify_player_passcode player_id passcode st.store with
    | error e => rfl
    | ok vid =>
      simp only [create_game_session_try]
      by_cases hq : recent_session_count now player_id st.store ≥ 20
      · rw [if_pos hq, if_pos hq]
        rfl
      · rw [if_neg hq, if_neg hq]
        rfl

/-- C6: registration appends to the players table exactly the salted
bcrypt hash of the passcode (a value of the hash type, never the raw
passcode), and two registrations with the same passcode but different
random salts store different hash values. -/
theorem C6_thm (fn ln fn2 ln2 : String) (p : Int) (s1 s2 : Nat)
    (db : Store) (hs : s1 ≠ s2) :
    ((create_player ⟨fn2, ln2, p⟩ s2
        (create_player ⟨fn, ln, p⟩ s1 db).2).2).players.map Player.passcode
      = db.players.map Player.passcode ++ [bcrypt_hashpw p s1, bcrypt_hashpw p s2] ∧
    bcrypt_hashpw p s1 ≠ bcrypt_hashpw p s2 := by
  constructor
  · simp [create_player, bcrypt_hashpw]
  · simp [bcrypt_hashpw, hs]

/-- C6 witness: two registrations with passcode 4321 and salts 1 and 2
store two distinct hashes. -/
theorem C6_witness :
    ((create_player ⟨"Ann", "Lee", 4321⟩ 2
        (create_player ⟨"Bob", "Roy", 4321⟩ 1 emptyStore).2).2).players.map Player.passcode
      = [bcrypt_hashpw 4321 1, bcrypt_hashpw 4321 2] ∧
    bcrypt_hashpw 4321 1 ≠ bcrypt_hashpw 4321 2 := by
  have h := C6_thm "Bob" "Roy" "Ann" "Lee" 4321 1 2 emptyStore (by decide)
  simpa [emptyStore] using h

/-- C7 counterexample: a session-creation request with passcode 5 —
far outside [1000, 9999] — is not rejected with a 422 validation
error.  The rate limiter records the request and the authentication
lookup runs, failing with 404 "Player not found": the passcode query
parameter of `create_game_session` carries no range constraint. -/
theorem C7_counterexample :
    (post_create_game_session 0 "client" 1 5 initialState).1
      = .error ⟨404, "Player not found"⟩ ∧
    (post_create_game_session 0 "client" 1 5 initialState).2.limiter.log
      = [⟨"create_game_session", "client", 0⟩] := by
  constructor <;> rfl

/-- C7 (amended): an out-of-range passcode is rejected with a 422
validation error before any component runs — state fully unchanged —
for player registration only, whose pydantic schema carries
`Field(ge=1000, le=9999)`; session creation never returns a 422 for
its unconstrained passcode query parameter. -/
theorem C7_amended_thm (now : Int) (addr fn ln : String) (pc : Int) (salt : Nat)
    (st : AppState) (player_id : Int) (st2 : AppState)
    (hout : pc < 1000 ∨ 9999 < pc) :
    post_create_player now addr fn ln pc salt st
      = (.error ⟨422, "validation error"⟩, st) ∧
    ∀ det : String,
      (post_create_game_session now addr player_id pc st2).1 ≠ .error ⟨422, det⟩ := by
  constructor
  · simp [post_create_player, hout]
  · intro det hcontra
    rcases post_create_game_session_status now addr player_id pc st2 ⟨422, det⟩
      hcontra with h | h | h | h <;> simp at h

/-- C7 witness: passcode 500 is rejected with 422 at registration and
yields no 422 at session creation. -/
theorem C7_witness :
    post_create_player 0 "client" "Ann" "Lee" 500 0 initialState
      = (.error ⟨422, "validation error"⟩, initialState) ∧
    (post_create_game_session 0 "client" 1 500 initialState).1
      ≠ .error ⟨422, "validation error"⟩ := by
  have h := C7_amended_thm 0 "client" "Ann" "Lee" 500 0 initialState 1 initialState
    (Or.inl (by decide))
  exact ⟨h.1, h.2 "validation error"⟩

/-- C8: six registration requests from the same address inside one
minute, starting from a state with no recorded hits for that address:
the first five are admitted and return player ids, the sixth fails
with 429 "Too many requests" (a status shared by no other error kind
of this API except the session quota), and a request from a different
fresh address in the same window is admitted. -/
theorem C8_thm (a b : String) (hab : b ≠ a) (t1 t2 t3 t4 t5 t6 : Int)
    (h12 : t1 ≤ t2) (h23 : t2 ≤ t3) (h34 : t3 ≤ t4) (h45 : t4 ≤ t5) (h56 : t5 ≤ t6)
    (hwin : t6 < t1 + 60) (st : AppState)
    (hfresh : ∀ e ∈ st.limiter.log, e.addr ≠ a ∧ e.addr ≠ b) :
    ∃ i1 i2 i3 i4 i5 ib s1 s2 s3 s4 s5 s6,
      post_create_player t1 a "Ann" "Lee" 4321 0 st = (.ok i1, s1) ∧
      post_create_player t2 a "Ann" "Lee" 4321 0 s1 = (.ok i2, s2) ∧
      post_create_player t3 a "Ann" "Lee" 4321 0 s2 = (.ok i3, s3) ∧
      post_create_player t4 a "Ann" "Lee" 4321 0 s3 = (.ok i4, s4) ∧
      post_create_player t5 a "Ann" "Lee" 4321 0 s4 = (.ok i5, s5) ∧
      post_create_player t6 a "Ann" "Lee" 4321 0 s5
        = (.error ⟨429, "Too many requests"⟩, s6) ∧
      (post_create_player t6 b "Ann" "Lee" 4321 0 s6).1 = .ok ib := by
  have hz : ∀ u : Int,
      st.limiter.log.countP (rate_window_pred "create_player" a u) = 0 := by
    intro u
    rw [List.countP_eq_zero]
    intro e he
    simp only [rate_window_pred, Bool.and_eq_true, beq_iff_eq, decide_eq_true_eq]
    intro hcontra
    exact (hfresh e he).1 hcontra.1.1.2
  have hzb : st.limiter.log.countP (rate_window_pred "create_player" b t6) = 0 := by
    rw [List.countP_eq_zero]
    intro e he
    simp only [rate_window_pred, Bool.and_eq_true, beq_iff_eq, decide_eq_true_eq]
    intro hcontra
    exact (hfresh e he).2 hcontra.1.1.2
  have hone : ∀ u v : Int, t1 ≤ u → u ≤ v → v ≤ t6 →
      rate_window_pred "create_player" a v ⟨"create_player", a, u⟩ = true := by
    intro u v hu huv hv
    simp [rate_window_pred]
    omega
  have honeb : ∀ u : Int,
      rate_window_pred "create_player" b t6 ⟨"create_player", a, u⟩ = false := by
    intro u
    rw [Bool.eq_false_iff]
    intro hcontra
    simp only [rate_window_pred, Bool.and_eq_true, beq_iff_eq,
      decide_eq_true_eq] at hcontra
    exact hab hcontra.1.1.2.symm
  obtain ⟨i1, s1, he1, hl1⟩ := post_create_player_admitted t1 a "Ann" "Lee" 0 st
    st.limiter.log rfl (by rw [hz]; omega)
  obtain ⟨i2, s2, he2, hl2⟩ := post_create_player_admitted t2 a "Ann" "Lee" 0 s1
    (st.limiter.log ++ [⟨"create_player", a, t1⟩]) hl1 (by
      rw [List.countP_append, hz]
      simp [List.countP_cons, hone t1 t2 le_rfl h12 (by omega)])
  obtain ⟨i3, s3, he3, hl3⟩ := post_create_player_admitted t3 a "Ann" "Lee" 0 s2
    (st.limiter.log ++ [⟨"create_player", a, t1⟩] ++ [⟨"create_player", a, t2⟩])
    hl2 (by
      rw [List.countP_append, List.countP_append, hz]
      simp [List.countP_cons, hone t1 t3 le_rfl (by omega) (by omega),
        hone t2 t3 (by omega) h23 (by omega)])
  obtain ⟨i4, s4, he4, hl4⟩ := post_create_player_admitted t4 a "Ann" "Lee" 0 s3
    (st.limiter.log ++ [⟨"create_player", a, t1⟩] ++ [⟨"create_player", a, t2⟩]
      ++ [⟨"create_player", a, t3⟩]) hl3 (by
      rw [List.countP_append, List.countP_append, List.countP_append, hz]
      simp [List.countP_cons, hone t1 t4 le_rfl (by omega) (by omega),
        hone t2 t4 (by omega) (by omega) (by omega),
        hone t3 t4 (by omega) h34 (by omega)])
  obtain ⟨i5, s5, he5, hl5⟩ := post_create_player_admitted t5 a "Ann" "Lee" 0 s4
    (st.limiter.log ++ [⟨"create_player", a, t1⟩] ++ [⟨"create_player", a, t2⟩]
      ++ [⟨"create_player", a, t3⟩] ++ [⟨"create_player", a, t4⟩]) hl4 (by
      rw [List.countP_append, List.countP_append, List.countP_append,
        List.countP_append, hz]
      simp [List.countP_cons, hone t1 t5 le_rfl (by omega) (by omega),
        hone t2 t5 (by omega) (by omega) (by omega),
        hone t3 t5 (by omega) (by omega) (by omega),
        hone t4 t5 (by omega) h45 (by omega)])
  obtain ⟨s6, he6, hl6⟩ := post_create_player_refused t6 a "Ann" "Lee" 0 s5
    (st.limiter.log ++ [⟨"create_player", a, t1⟩] ++ [⟨"create_player", a, t2⟩]
      ++ [⟨"create_player", a, t3⟩] ++ [⟨"create_player", a, t4⟩]
      ++ [⟨"create_player", a, t5⟩]) hl5 (by
      rw [List.countP_append, List.countP_append, List.countP_append,
        List.countP_append, List.countP_append, hz]
      simp [List.countP_cons, hone t1 t6 le_rfl (by omega) le_rfl,
        hone t2 t6 (by omega) (by omega) le_rfl,
        hone t3 t6 (by omega) (by omega) le_rfl,
        hone t4 t6 (by omega) (by omega) le_rfl,
        hone t5 t6 (by omega) h56 le_rfl])
  obtain ⟨ib, s7, he7, hl7⟩ := post_create_player_admitted t6 b "Ann" "Lee" 0 s6
    (st.limiter.log ++ [⟨"create_player", a, t1⟩] ++ [⟨"create_player", a, t2⟩]
      ++ [⟨"create_player", a, t3⟩] ++ [⟨"create_player", a, t4⟩]
      ++ [⟨"create_player", a, t5⟩] ++ [⟨"create_player", a, t6⟩]) hl6 (by
      rw [List.countP_append, List.countP_append, List.countP_append,
        List.countP_append, List.countP_append, List.countP_append, hzb]
      simp [List.countP_cons, honeb])
  exact ⟨i1, i2, i3, i4, i5, ib, s1, s2, s3, s4, s5, s6,
    he1, he2, he3, he4, he5, he6, by rw [he7]⟩

/-- C8 witness: six simultaneous registrations from address "alice"
on a fresh service, then one from "bob". -/
theorem C8_witness :
    ∃ i1 i2 i3 i4 i5 ib s1 s2 s3 s4 s5 s6,
      post_create_player 0 "alice" "Ann" "Lee" 4321 0 initialState = (.ok i1, s1) ∧
      post_create_player 0 "alice" "Ann" "Lee" 4321 0 s1 = (.ok i2, s2) ∧
      post_create_player 0 "alice" "Ann" "Lee" 4321 0 s2 = (.ok i3, s3) ∧
      post_create_player 0 "alice" "Ann" "Lee" 4321 0 s3 = (.ok i4, s4) ∧
      post_create_player 0 "alice" "Ann" "Lee" 4321 0 s4 = (.ok i5, s5) ∧
      post_create_player 0 "alice" "Ann" "Lee" 4321 0 s5
        = (.error ⟨429, "Too many requests"⟩, s6) ∧
      (post_create_player 0 "bob" "Ann" "Lee" 4321 0 s6).1 = .ok ib :=
  C8_thm "alice" "bob" (by decide) 0 0 0 0 0 0 le_rfl le_rfl le_rfl le_rfl le_rfl
    (by decide) initialState (by intro e he; simp [initialState] at he)

/-- C9: in every state reachable through the public operations, each
exercise table holds at most one result row per session (its
`session_id` primary key never repeats), and a second submission for a
session and exercise kind that already has a row fails with 500 after
rollback, leaving the state — in particular the stored row — 
unchanged. -/
theorem C9_thm (st : AppState) (hreach : Reachable st) :
    table_keys_unique st.store ∧
    ∀ (session_id : Int) (req : ExerciseRequest),
      has_result st.store req session_id = true →
      post_create_exercise_result session_id req st
        = (.error ⟨500, "Database error"⟩, st) := by
  refine ⟨?_, fun sid req hdup => duplicate_submission_fails st sid req hdup⟩
  induction hreach with
  | init => decide
  | step_create_player now addr fn ln pc salt st' _ ih =>
      exact table_keys_unique_create_player now addr fn ln pc salt st' ih
  | step_create_game_session now addr player_id passcode st' _ ih =>
      exact table_keys_unique_create_session now addr player_id passcode st' ih
  | step_exercise session_id req st' _ ih =>
      exact table_keys_unique_exercise session_id req st' ih

/-- C9 witness: after the demo run (register, open session, submit one
breathing-technique result), the invariant holds and resubmitting the
same exercise for session 1 fails with 500 and changes nothing. -/
theorem C9_witness :
    table_keys_unique demo_state3.store ∧
    post_create_exercise_result 1 (.breathingTechniques ⟨true, 12⟩) demo_state3
      = (.error ⟨500, "Database error"⟩, demo_state3) := by
  have hreach : Reachable demo_state3 :=
    Reachable.step_exercise 1 (.breathingTechniques ⟨true, 12⟩) demo_state2
      (Reachable.step_create_game_session 1 "client" 1 4321 demo_state1
        (Reachable.step_create_player 0 "client" "Ann" "Lee" 4321 7 initialState
          Reachable.init))
  have h := C9_thm demo_state3 hreach
  exact ⟨h.1, h.2 1 (.breathingTechniques ⟨true, 12⟩) (by decide)⟩

/-- C10: no exercise-result endpoint is rate limited: whatever the
state (hence whatever sequence of prior requests, of any count or
frequency) and whatever the request — which carries no client address
at all, since no limiter decorates these routes — the result is never
a 429. -/
theorem C10_thm (session_id : Int) (req : ExerciseRequest) (st : AppState)
    (det : String) :
    (post_create_exercise_result session_id req st).1 ≠ .error ⟨429, det⟩ := by
  cases req <;>
    simp only [post_create_exercise_result, create_exercise_result,
      create_breathing_technique, create_stretch_and_reach, create_light_hands,
      create_rhythm_recovery, create_draw_shapes, create_line_walk,
      create_balloons] <;>
    split <;> simp

end TherapyApi
